import Mathlib

/-!
Verification of the generic data-access layer of a Parse-server deployment
(cloud functions in `src/cloud/main.cjs`): dynamic table lifecycle, record
CRUD, batch insertion, counting, and the filter compiler that turns a nested
JSON filter specification into a conjunction of store predicates.

The cloud-function module is embedded shallowly: JSON values become the
inductive `Value`, the filter-compilation loop of `readTable`/`countRecords`
(lines 170-183 and 317-329 of `main.cjs`, textually identical) becomes
`compileEntry`/`compileFilters`, and each cloud function becomes a Lean
function from an explicit `Store` state and optional request parameters to a
result-and-state pair.  The Parse server / MongoDB store is an external
collaborator; its operations (`insert`, `getById`, `queryWithPredicates`,
`purgeClass`, ...) are modelled from the specification's contract for it.
-/

namespace ParseCloud

/-- A dynamically-typed JSON-like value, as held in request parameters,
filter specifications and record fields.  Numbers are modelled as integers;
nothing proved here depends on fractional values. -/
inductive Value : Type where
  | null : Value
  | bool : Bool → Value
  | num : Int → Value
  | str : String → Value
  | arr : List Value → Value
  | obj : List (String × Value) → Value
deriving Repr

mutual
/-- Structural equality test on values (the store's notion of equality for
`equalTo` / `notEqualTo` / `containedIn` predicates). -/
def valueBeq : Value → Value → Bool
  | Value.null, Value.null => true
  | Value.bool a, Value.bool b => a == b
  | Value.num a, Value.num b => a == b
  | Value.str a, Value.str b => a == b
  | Value.arr a, Value.arr b => valuesBeq a b
  | Value.obj a, Value.obj b => fieldsBeq a b
  | _, _ => false

/-- Pointwise equality of value lists. -/
def valuesBeq : List Value → List Value → Bool
  | [], [] => true
  | a :: as, b :: bs => valueBeq a b && valuesBeq as bs
  | _, _ => false

/-- Pointwise equality of field lists. -/
def fieldsBeq : List (String × Value) → List (String × Value) → Bool
  | [], [] => true
  | (k, v) :: as, (l, w) :: bs => k == l && valueBeq v w && fieldsBeq as bs
  | _, _ => false
end

/-- One store predicate, as accumulated on a `Parse.Query` by the filter
loop: `eq` = `equalTo`, `gt` = `greaterThan`, `lt` = `lessThan`,
`gte` = `greaterThanOrEqualTo`, `lte` = `lessThanOrEqualTo`,
`ne` = `notEqualTo`, `containedIn` = `containedIn`. -/
inductive Pred : Type where
  | eq (field : String) (operand : Value)
  | gt (field : String) (operand : Value)
  | lt (field : String) (operand : Value)
  | gte (field : String) (operand : Value)
  | lte (field : String) (operand : Value)
  | ne (field : String) (operand : Value)
  | containedIn (field : String) (operand : Value)
deriving Repr

/-- The branch test `value && typeof value === 'object'` at `main.cjs:172`
and `main.cjs:319`.  In JavaScript `typeof` yields `'object'` for plain
objects, arrays and `null`, but `null` is falsy, so the conjunction holds
exactly for (non-null) objects and arrays. -/
def isOperatorObject : Value → Bool
  | Value.arr _ => true
  | Value.obj _ => true
  | _ => false

/-- JavaScript property access `value.$op` on a filter value: defined for
object literals by key lookup; on an array (or any non-object) the `$`-named
properties are absent, i.e. `undefined`. -/
def getProp : Value → String → Option Value
  | Value.obj fs, k => fs.lookup k
  | _, _ => none

/-- The per-field body of the filter loop at `main.cjs:170-183` (and its
verbatim copy at `main.cjs:317-329`): a truthy object-typed value is treated
as an operator object and contributes one predicate per recognized operator
property present, tested in the fixed source order `$gt`, `$lt`, `$gte`,
`$lte`, `$ne`, `$in`; any other value contributes the single equality
predicate `query.equalTo(key, value)`. -/
def compileEntry (key : String) (value : Value) : List Pred :=
  if isOperatorObject value then
    (match getProp value "$gt" with
      | some v => [Pred.gt key v] | none => [])
    ++ (match getProp value "$lt" with
      | some v => [Pred.lt key v] | none => [])
    ++ (match getProp value "$gte" with
      | some v => [Pred.gte key v] | none => [])
    ++ (match getProp value "$lte" with
      | some v => [Pred.lte key v] | none => [])
    ++ (match getProp value "$ne" with
      | some v => [Pred.ne key v] | none => [])
    ++ (match getProp value "$in" with
      | some v => [Pred.containedIn key v] | none => [])
  else
    [Pred.eq key value]

/-- The whole filter loop `Object.keys(filters).forEach(...)`: the ordered
conjunction of the predicates contributed by each field of the filter
specification. -/
def compileFilters (filters : List (String × Value)) : List Pred :=
  (filters.map fun kv => compileEntry kv.1 kv.2).flatten

/-- A record persisted in the store: the store-assigned `objectId`, the
field mapping, and whether the record carries the public access policy
(`new Parse.ACL()`). -/
structure StoredRecord : Type where
  objectId : String
  fields : List (String × Value)
  aclPublic : Bool
deriving Repr

/-- Modelled from the spec: the external document store.  Classes are kept
as an ordered association list from class name to the class's records
(a class exists once the first write introduces it), together with a counter
from which fresh object ids are minted — `objectId` is unique and never
reused. -/
structure Store : Type where
  classes : List (String × List StoredRecord)
  nextId : Nat
deriving Repr

/-- The fresh object id minted for the `n`-th insertion. -/
def freshId (n : Nat) : String := "obj" ++ toString n

/-- Update an ordered association list at a key, appending at the end when
the key is new (JavaScript object / store class-map update order). -/
def setAssoc {α : Type} : List (String × α) → String → α → List (String × α)
  | [], k, v => [(k, v)]
  | (k', v') :: l, k, v =>
    if k' == k then (k, v) :: l else (k', v') :: setAssoc l k v

/-- The records currently stored for a class (empty when the class does not
exist yet). -/
def getClassRecords (s : Store) (cn : String) : List StoredRecord :=
  (s.classes.lookup cn).getD []

/-- Whether the class exists in the store's schema. -/
def classExists (s : Store) (cn : String) : Bool :=
  (s.classes.lookup cn).isSome

/-- Replace a class's record list (creating the class on first write). -/
def putClassRecords (s : Store) (cn : String) (recs : List StoredRecord) : Store :=
  { s with classes := setAssoc s.classes cn recs }

/-- Modelled from the spec: the store's `insert` operation, as triggered by
`obj.save(null, \x7buseMasterKey: true\x7d)` on a fresh object — assigns the
next fresh `objectId`, appends the record to its class and bumps the id
counter. -/
def insertRecord (s : Store) (cn : String) (fs : List (String × Value))
    (acl : Bool) : Store × StoredRecord :=
  let r : StoredRecord := ⟨freshId s.nextId, fs, acl⟩
  (putClassRecords { s with nextId := s.nextId + 1 } cn
    (getClassRecords s cn ++ [r]), r)

/-- The store's ordering on values: numbers by integer order, strings
lexicographically, any cross-type or non-scalar comparison is false. -/
def valueLt : Value → Value → Bool
  | Value.num a, Value.num b => a < b
  | Value.str a, Value.str b => decide (a < b)
  | _, _ => false

/-- Modelled from the spec: evaluation of one compiled predicate against a
record.  A filter field absent from the record never matches (the predicate
is unconditionally false for that record). -/
def evalPred (r : StoredRecord) : Pred → Bool
  | Pred.eq f v =>
    match r.fields.lookup f with
    | some w => valueBeq w v | none => false
  | Pred.gt f v =>
    match r.fields.lookup f with
    | some w => valueLt v w | none => false
  | Pred.lt f v =>
    match r.fields.lookup f with
    | some w => valueLt w v | none => false
  | Pred.gte f v =>
    match r.fields.lookup f with
    | some w => valueLt v w || valueBeq w v | none => false
  | Pred.lte f v =>
    match r.fields.lookup f with
    | some w => valueLt w v || valueBeq w v | none => false
  | Pred.ne f v =>
    match r.fields.lookup f with
    | some w => !valueBeq w v | none => false
  | Pred.containedIn f v =>
    match r.fields.lookup f, v with
    | some w, Value.arr xs => xs.any (valueBeq w)
    | _, _ => false

/-- Modelled from the spec: the store's `queryWithPredicates` — the records
satisfying every compiled predicate (flat conjunction). -/
def runQuery (recs : List StoredRecord) (preds : List Pred) : List StoredRecord :=
  recs.filter fun r => preds.all (evalPred r)

/-- An error surfaced by a cloud function: either the pre-store validation
throw (`throw new Error('... required')` before the `try` block), or the
catch-block re-raise `throw new Error('Failed to ...: ' + error.message)`. -/
inductive Err : Type where
  | validation (msg : String)
  | failure (msg : String)
deriving Repr

/-- An error raised by the store collaborator during the delegated work
inside a `try` block, carrying its human-readable message. -/
structure StoreErr : Type where
  msg : String
deriving Repr

/-- The `try/catch` wrapper shared by every cloud function: a successful
body yields its payload and the updated store; an error from the delegated
store work is re-raised with the operation-specific message prefix
prepended to the original message, the store left as it was. -/
def wrapTry {α : Type} (pre : String) (s : Store)
    (body : Except StoreErr (α × Store)) : Except Err α × Store :=
  match body with
  | Except.ok (a, s') => (Except.ok a, s')
  | Except.error e => (Except.error (Err.failure (pre ++ e.msg)), s)

/-- JavaScript truthiness of an optional string parameter: `undefined`
(absent) and the empty string are falsy. -/
def truthyStr : Option String → Bool
  | none => false
  | some s => !s.isEmpty

/-- Field names of a class as reported by the schema API — the set of field
names introduced by the class's records, in first-write order. -/
def classFieldNames (recs : List StoredRecord) : List String :=
  ((recs.map fun r => r.fields.map Prod.fst).flatten).dedup

/-- Payload of `createTable`. -/
structure CreateTablePayload : Type where
  message : String
  className : String
deriving Repr

/-- `createTable` (`main.cjs:14-40`): validates `className`, then builds a
fresh object, copies each field of the optional `schema` parameter onto it
with `obj.set`, attaches the public ACL and saves it — materializing the
class by inserting one concrete record. -/
def createTable (s : Store) (className : Option String)
    (schema : Option (List (String × Value))) :
    Except Err CreateTablePayload × Store :=
  if !truthyStr className then
    (Except.error (Err.validation "className is required"), s)
  else
    let cn := className.getD ""
    let fs := match schema with
      | some m => m
      | none => []
    let res := insertRecord s cn fs true
    (Except.ok ⟨"Table " ++ cn ++ " created successfully", cn⟩, res.1)

/-- Summary of one table as returned by `listTables`. -/
structure TableInfo : Type where
  className : String
  fields : List String
deriving Repr

/-- Payload of `listTables`. -/
structure ListTablesPayload : Type where
  tables : List TableInfo
  count : Nat
deriving Repr

/-- `listTables` (`main.cjs:45-61`): maps `Parse.Schema.all()` — every class
with its field-name list — into the summary payload. -/
def listTables (s : Store) : Except Err ListTablesPayload × Store :=
  let tables := s.classes.map fun p => TableInfo.mk p.1 (classFieldNames p.2)
  (Except.ok ⟨tables, tables.length⟩, s)

/-- Payload of `getTableSchema`. -/
structure SchemaPayload : Type where
  className : String
  fields : List String
deriving Repr

/-- The delegated store work of `getTableSchema`: `new Parse.Schema(cn).get()`
fails for an unknown class with a not-found message. -/
def getTableSchemaBody (s : Store) (cn : String) :
    Except StoreErr (SchemaPayload × Store) :=
  match s.classes.lookup cn with
  | none => Except.error ⟨"Class " ++ cn ++ " does not exist."⟩
  | some recs => Except.ok (⟨cn, classFieldNames recs⟩, s)

/-- `getTableSchema` (`main.cjs:68-87`). -/
def getTableSchema (s : Store) (className : Option String) :
    Except Err SchemaPayload × Store :=
  if !truthyStr className then
    (Except.error (Err.validation "className is required"), s)
  else
    wrapTry "Failed to get schema: " s (getTableSchemaBody s (className.getD ""))

/-- Modelled from the spec: the store collaborator's `purgeClass` schema
operation invoked as `schema.purge()` — purges all records of the class and
the class definition itself; fails for a class the schema does not know.
(The spec's further failure case, other classes holding references into the
class, is outside this data model, which has no relation fields.) -/
def purgeClass (s : Store) (cn : String) : Except StoreErr Store :=
  if classExists s cn then
    Except.ok { s with classes := s.classes.filter fun p => p.1 != cn }
  else
    Except.error ⟨"Class " ++ cn ++ " does not exist."⟩

/-- Payload of `deleteTable`. -/
structure DeleteTablePayload : Type where
  message : String
deriving Repr

/-- The delegated store work of `deleteTable`: the `purge` call. -/
def deleteTableBody (s : Store) (cn : String) :
    Except StoreErr (DeleteTablePayload × Store) :=
  match purgeClass s cn with
  | Except.ok s' => Except.ok (⟨"Table " ++ cn ++ " deleted successfully"⟩, s')
  | Except.error e => Except.error e

/-- `deleteTable` (`main.cjs:94-112`). -/
def deleteTable (s : Store) (className : Option String) :
    Except Err DeleteTablePayload × Store :=
  if !truthyStr className then
    (Except.error (Err.validation "className is required"), s)
  else
    wrapTry "Failed to delete table: " s (deleteTableBody s (className.getD ""))

/-- Payload of `createRecord` and `updateRecord`. -/
structure RecordPayload : Type where
  message : String
  objectId : String
  data : StoredRecord
deriving Repr

/-- The delegated store work of `createRecord`: build the object from
`data`, attach the public ACL, save. -/
def createRecordBody (s : Store) (cn : String) (d : List (String × Value)) :
    Except StoreErr (RecordPayload × Store) :=
  let res := insertRecord s cn d true
  Except.ok (⟨"Record created successfully", res.2.objectId, res.2⟩, res.1)

/-- `createRecord` (`main.cjs:122-149`). -/
def createRecord (s : Store) (className : Option String)
    (d : Option (List (String × Value))) :
    Except Err RecordPayload × Store :=
  if !truthyStr className || d.isNone then
    (Except.error (Err.validation "className and data are required"), s)
  else
    wrapTry "Failed to create record: " s
      (createRecordBody s (className.getD "") (d.getD []))

/-- Payload of `readTable`. -/
structure ReadPayload : Type where
  className : String
  count : Nat
  data : List StoredRecord
deriving Repr

/-- The delegated store work of `readTable`: compile the filters onto the
query, apply `query.limit` / `query.skip`, and `find` — the store applies
the offset first, then the page size. -/
def readTableBody (s : Store) (cn : String) (filters : List (String × Value))
    (limit skip : Nat) : Except StoreErr (ReadPayload × Store) :=
  let results :=
    ((runQuery (getClassRecords s cn) (compileFilters filters)).drop skip).take limit
  Except.ok (⟨cn, results.length, results⟩, s)

/-- `readTable` (`main.cjs:159-199`): destructures
`\x7b className, filters = \x7b\x7d, limit = 100, skip = 0 \x7d`, validates
`className`, compiles the filters and returns the page with its length. -/
def readTable (s : Store) (className : Option String)
    (filters : Option (List (String × Value))) (limit skip : Option Nat) :
    Except Err ReadPayload × Store :=
  if !truthyStr className then
    (Except.error (Err.validation "className is required"), s)
  else
    wrapTry "Failed to read records: " s
      (readTableBody s (className.getD "") (filters.getD [])
        (limit.getD 100) (skip.getD 0))

/-- JavaScript property assignment `obj[k] = v` on an ordered field mapping
with unique keys: overwrite in place when the key exists, append otherwise. -/
def setField : List (String × Value) → String → Value → List (String × Value)
  | [], k, v => [(k, v)]
  | (k', v') :: fs, k, v =>
    if k' == k then (k, v) :: fs else (k', v') :: setField fs k v

/-- The update loop `Object.keys(data).forEach((key) => obj.set(key, data[key]))`:
merge `d` over the existing fields, last write per key winning. -/
def mergeFields (fs : List (String × Value)) (d : List (String × Value)) :
    List (String × Value) :=
  d.foldl (fun acc kv => setField acc kv.1 kv.2) fs

/-- `query.get(objectId)`: the class's record with the given id, if any. -/
def findRecord (recs : List StoredRecord) (oid : String) : Option StoredRecord :=
  recs.find? fun r => r.objectId == oid

/-- Replace the record with the given id by the updated record. -/
def replaceRecord (recs : List StoredRecord) (oid : String)
    (r' : StoredRecord) : List StoredRecord :=
  recs.map fun r => if r.objectId == oid then r' else r

/-- The delegated store work of `updateRecord`: fetch the record
(`query.get` raises a not-found error when the id is absent from the
class), merge `data` over its fields, save. -/
def updateRecordBody (s : Store) (cn oid : String)
    (d : List (String × Value)) : Except StoreErr (RecordPayload × Store) :=
  match findRecord (getClassRecords s cn) oid with
  | none => Except.error ⟨"Object not found."⟩
  | some r =>
    let r' : StoredRecord := { r with fields := mergeFields r.fields d }
    Except.ok (⟨"Record updated successfully", r'.objectId, r'⟩,
      putClassRecords s cn (replaceRecord (getClassRecords s cn) oid r'))

/-- `updateRecord` (`main.cjs:208-234`). -/
def updateRecord (s : Store) (className objectId : Option String)
    (d : Option (List (String × Value))) : Except Err RecordPayload × Store :=
  if !truthyStr className || !truthyStr objectId || d.isNone then
    (Except.error (Err.validation "className, objectId, and data are required"), s)
  else
    wrapTry "Failed to update record: " s
      (updateRecordBody s (className.getD "") (objectId.getD "") (d.getD []))

/-- Payload of `deleteRecord`. -/
structure DeletePayload : Type where
  message : String
  objectId : String
deriving Repr

/-- The delegated store work of `deleteRecord`: fetch then destroy. -/
def deleteRecordBody (s : Store) (cn oid : String) :
    Except StoreErr (DeletePayload × Store) :=
  match findRecord (getClassRecords s cn) oid with
  | none => Except.error ⟨"Object not found."⟩
  | some _ =>
    Except.ok (⟨"Record deleted successfully", oid⟩,
      putClassRecords s cn
        ((getClassRecords s cn).filter fun r => r.objectId != oid))

/-- `deleteRecord` (`main.cjs:242-262`). -/
def deleteRecord (s : Store) (className objectId : Option String) :
    Except Err DeletePayload × Store :=
  if !truthyStr className || !truthyStr objectId then
    (Except.error (Err.validation "className and objectId are required"), s)
  else
    wrapTry "Failed to delete record: " s
      (deleteRecordBody s (className.getD "") (objectId.getD ""))

/-- Payload of `batchCreateRecords`. -/
structure BatchPayload : Type where
  message : String
  count : Nat
  objectIds : List String
deriving Repr

/-- Modelled from the spec: `Parse.Object.saveAll` — persist one object per
input entry as a single bulk operation, assigning fresh ids in input order;
returns the updated store and the saved objects in input order. -/
def saveAll (s : Store) (cn : String) :
    List (List (String × Value)) → Store × List StoredRecord
  | [] => (s, [])
  | d :: rest =>
    let res := insertRecord s cn d true
    let res' := saveAll res.1 cn rest
    (res'.1, res.2 :: res'.2)

/-- The delegated store work of `batchCreateRecords`: build one object per
entry (each with the public ACL), `saveAll`, return the count and the ids
in input order. -/
def batchCreateRecordsBody (s : Store) (cn : String)
    (ds : List (List (String × Value))) :
    Except StoreErr (BatchPayload × Store) :=
  let res := saveAll s cn ds
  Except.ok
    (⟨toString res.2.length ++ " records created successfully",
      res.2.length, res.2.map fun o => o.objectId⟩, res.1)

/-- `batchCreateRecords` (`main.cjs:270-298`): requires `className` and that
`records` is an array. -/
def batchCreateRecords (s : Store) (className : Option String)
    (records : Option (List (List (String × Value)))) :
    Except Err BatchPayload × Store :=
  if !truthyStr className || records.isNone then
    (Except.error (Err.validation "className and records array are required"), s)
  else
    wrapTry "Failed to batch create records: " s
      (batchCreateRecordsBody s (className.getD "") (records.getD []))

/-- Payload of `countRecords`. -/
structure CountPayload : Type where
  className : String
  count : Nat
deriving Repr

/-- The delegated store work of `countRecords`: compile the filters onto the
query exactly as `readTable` does and `query.count` — no `limit`, no `skip`
is ever applied on this path. -/
def countRecordsBody (s : Store) (cn : String)
    (filters : List (String × Value)) : Except StoreErr (CountPayload × Store) :=
  Except.ok
    (⟨cn, (runQuery (getClassRecords s cn) (compileFilters filters)).length⟩, s)

/-- `countRecords` (`main.cjs:306-341`): destructures only `className` and
`filters` — pagination parameters are not read at all. -/
def countRecords (s : Store) (className : Option String)
    (filters : Option (List (String × Value))) :
    Except Err CountPayload × Store :=
  if !truthyStr className then
    (Except.error (Err.validation "className is required"), s)
  else
    wrapTry "Failed to count records: " s
      (countRecordsBody s (className.getD "") (filters.getD []))
/-! ## Association-list lemmas -/

theorem lookup_setAssoc_self {α : Type} (l : List (String × α)) (k : String)
    (v : α) : (setAssoc l k v).lookup k = some v := by
  induction l with
  | nil => simp [setAssoc, List.lookup_cons]
  | cons p l ih =>
    obtain ⟨k', v'⟩ := p
    by_cases h : k' = k
    · subst h; simp [setAssoc, List.lookup_cons]
    · simp [setAssoc, List.lookup_cons, beq_false_of_ne h,
        beq_false_of_ne (Ne.symm h), ih]

theorem lookup_setAssoc_ne {α : Type} (l : List (String × α)) (k k' : String)
    (v : α) (h : k' ≠ k) : (setAssoc l k v).lookup k' = l.lookup k' := by
  induction l with
  | nil => simp [setAssoc, List.lookup_cons, beq_false_of_ne h, List.lookup]
  | cons p l ih =>
    obtain ⟨k'', v''⟩ := p
    by_cases hk : k'' = k
    · subst hk
      simp [setAssoc, List.lookup_cons, beq_false_of_ne h]
    · by_cases hk' : k' = k''
      · subst hk'
        simp [setAssoc, List.lookup_cons, beq_false_of_ne hk]
      · simp [setAssoc, List.lookup_cons, beq_false_of_ne hk,
          beq_false_of_ne hk', ih]

theorem lookup_eq_none_of_not_mem {α : Type} (l : List (String × α))
    (k : String) (h : k ∉ l.map Prod.fst) : l.lookup k = none := by
  induction l with
  | nil => simp [List.lookup]
  | cons p l ih =>
    obtain ⟨k', v'⟩ := p
    simp only [List.map_cons, List.mem_cons, not_or] at h
    simp [List.lookup_cons, beq_false_of_ne h.1, ih h.2]

theorem getClassRecords_putClassRecords_self (s : Store) (cn : String)
    (recs : List StoredRecord) :
    getClassRecords (putClassRecords s cn recs) cn = recs := by
  simp [getClassRecords, putClassRecords, lookup_setAssoc_self]

theorem getClassRecords_putClassRecords_ne (s : Store) (cn cn' : String)
    (recs : List StoredRecord) (h : cn' ≠ cn) :
    getClassRecords (putClassRecords s cn recs) cn' = getClassRecords s cn' := by
  simp [getClassRecords, putClassRecords, lookup_setAssoc_ne _ _ _ _ h]

theorem insertRecord_snd (s : Store) (cn : String) (fs : List (String × Value))
    (acl : Bool) : (insertRecord s cn fs acl).2 = ⟨freshId s.nextId, fs, acl⟩ := rfl

theorem insertRecord_getClass_self (s : Store) (cn : String)
    (fs : List (String × Value)) (acl : Bool) :
    getClassRecords (insertRecord s cn fs acl).1 cn =
      getClassRecords s cn ++ [⟨freshId s.nextId, fs, acl⟩] :=
  getClassRecords_putClassRecords_self _ cn _

theorem insertRecord_getClass_ne (s : Store) (cn cn' : String)
    (fs : List (String × Value)) (acl : Bool) (h : cn' ≠ cn) :
    getClassRecords (insertRecord s cn fs acl).1 cn' = getClassRecords s cn' :=
  getClassRecords_putClassRecords_ne _ cn cn' _ h

theorem insertRecord_nextId (s : Store) (cn : String)
    (fs : List (String × Value)) (acl : Bool) :
    (insertRecord s cn fs acl).1.nextId = s.nextId + 1 := rfl

/-! ## Field-merge lemmas -/

theorem mergeFields_nil (fs : List (String × Value)) : mergeFields fs [] = fs := rfl

theorem mergeFields_cons (fs : List (String × Value)) (k : String) (v : Value)
    (d : List (String × Value)) :
    mergeFields fs ((k, v) :: d) = mergeFields (setField fs k v) d := rfl

theorem lookup_setField_self (fs : List (String × Value)) (k : String)
    (v : Value) : (setField fs k v).lookup k = some v := by
  induction fs with
  | nil => simp [setField, List.lookup_cons]
  | cons p fs ih =>
    obtain ⟨k', v'⟩ := p
    by_cases h : k' = k
    · subst h; simp [setField, List.lookup_cons]
    · simp [setField, List.lookup_cons, beq_false_of_ne h,
        beq_false_of_ne (Ne.symm h), ih]

theorem lookup_setField_ne (fs : List (String × Value)) (k k' : String)
    (v : Value) (h : k' ≠ k) : (setField fs k v).lookup k' = fs.lookup k' := by
  induction fs with
  | nil => simp [setField, List.lookup_cons, beq_false_of_ne h, List.lookup]
  | cons p fs ih =>
    obtain ⟨k'', v''⟩ := p
    by_cases hk : k'' = k
    · subst hk
      simp [setField, List.lookup_cons, beq_false_of_ne h]
    · by_cases hk' : k' = k''
      · subst hk'
        simp [setField, List.lookup_cons, beq_false_of_ne hk]
      · simp [setField, List.lookup_cons, beq_false_of_ne hk,
          beq_false_of_ne hk', ih]

theorem lookup_mergeFields_of_lookup_none (d : List (String × Value))
    (fs : List (String × Value)) (k : String) (h : d.lookup k = none) :
    (mergeFields fs d).lookup k = fs.lookup k := by
  induction d generalizing fs with
  | nil => simp [mergeFields]
  | cons p d ih =>
    obtain ⟨k0, v0⟩ := p
    by_cases hk : k = k0
    · subst hk
      simp [List.lookup_cons] at h
    · simp only [List.lookup_cons, beq_false_of_ne hk] at h
      rw [mergeFields_cons, ih _ h, lookup_setField_ne _ _ _ _ hk]

theorem lookup_mergeFields_of_lookup_some (d : List (String × Value))
    (fs : List (String × Value)) (k : String) (v : Value)
    (hnd : (d.map Prod.fst).Nodup) (h : d.lookup k = some v) :
    (mergeFields fs d).lookup k = some v := by
  induction d generalizing fs with
  | nil => simp [List.lookup] at h
  | cons p d ih =>
    obtain ⟨k0, v0⟩ := p
    simp only [List.map_cons, List.nodup_cons] at hnd
    by_cases hk : k = k0
    · subst hk
      simp only [List.lookup_cons, beq_self_eq_true] at h
      have hnone : d.lookup k = none := lookup_eq_none_of_not_mem _ _ hnd.1
      rw [mergeFields_cons, lookup_mergeFields_of_lookup_none _ _ _ hnone,
        lookup_setField_self]
      exact h
    · simp only [List.lookup_cons, beq_false_of_ne hk] at h
      rw [mergeFields_cons]
      exact ih _ hnd.2 h

/-! ## Claim C8 -/

/-- C8: for every operation, a parameter mapping missing one of the
operation's declared required parameters (modelled as the absent `none`)
fails with the operation's validation error, and the store component of the
result is the input store unchanged — the validation throw happens before
any store work. -/
theorem c8_missing_required_param_fails_validation_store_unchanged :
    (∀ (s : Store) (sch : Option (List (String × Value))), createTable s none sch =
      (Except.error (Err.validation "className is required"), s)) ∧
    (∀ s : Store, getTableSchema s none =
      (Except.error (Err.validation "className is required"), s)) ∧
    (∀ s : Store, deleteTable s none =
      (Except.error (Err.validation "className is required"), s)) ∧
    (∀ (s : Store) (d : Option (List (String × Value))), createRecord s none d =
      (Except.error (Err.validation "className and data are required"), s)) ∧
    (∀ (s : Store) (cn : Option String), createRecord s cn none =
      (Except.error (Err.validation "className and data are required"), s)) ∧
    (∀ (s : Store) (f : Option (List (String × Value))) (l k : Option Nat),
      readTable s none f l k =
      (Except.error (Err.validation "className is required"), s)) ∧
    (∀ (s : Store) (oid : Option String) (d : Option (List (String × Value))),
      updateRecord s none oid d =
      (Except.error (Err.validation "className, objectId, and data are required"), s)) ∧
    (∀ (s : Store) (cn : Option String) (d : Option (List (String × Value))),
      updateRecord s cn none d =
      (Except.error (Err.validation "className, objectId, and data are required"), s)) ∧
    (∀ (s : Store) (cn oid : Option String), updateRecord s cn oid none =
      (Except.error (Err.validation "className, objectId, and data are required"), s)) ∧
    (∀ (s : Store) (oid : Option String), deleteRecord s none oid =
      (Except.error (Err.validation "className and objectId are required"), s)) ∧
    (∀ (s : Store) (cn : Option String), deleteRecord s cn none =
      (Except.error (Err.validation "className and objectId are required"), s)) ∧
    (∀ (s : Store) (r : Option (List (List (String × Value)))),
      batchCreateRecords s none r =
      (Except.error (Err.validation "className and records array are required"), s)) ∧
    (∀ (s : Store) (cn : Option String), batchCreateRecords s cn none =
      (Except.error (Err.validation "className and records array are required"), s)) ∧
    (∀ (s : Store) (f : Option (List (String × Value))), countRecords s none f =
      (Except.error (Err.validation "className is required"), s)) := by
  refine ⟨?_, ?_, ?_, ?_, ?_, ?_, ?_, ?_, ?_, ?_, ?_, ?_, ?_, ?_⟩ <;>
    intros <;>
    simp [createTable, getTableSchema, deleteTable, createRecord, readTable,
      updateRecord, deleteRecord, batchCreateRecords, countRecords, truthyStr]

/-! ## Claim C10 -/

/-- C10: a `null` filter value is treated as a literal and compiles to the
single equality predicate `field == null` — it is not dispatched to the
operator branch, which is taken exactly for the truthy object-typed values,
namely arrays and (non-null) objects. -/
theorem c10_null_filter_value_is_equality_literal :
    (∀ key, compileEntry key Value.null = [Pred.eq key Value.null]) ∧
    isOperatorObject Value.null = false ∧
    (∀ v, isOperatorObject v = true ↔
      (∃ xs, v = Value.arr xs) ∨ (∃ fs, v = Value.obj fs)) := by
  refine ⟨fun key => rfl, rfl, fun v => ?_⟩
  cases v <;> simp [isOperatorObject]

/-! ## Claim C2 -/

/-- C2 counterexample: an array used as a filter literal does not compile to
an equality predicate.  `typeof` classifies a (truthy) array as `'object'`,
so `\x7btags: [1]\x7d` takes the operator branch, finds none of the
recognized `$`-properties, and contributes no predicate at all. -/
theorem c2_counterexample_array_literal_compiles_to_nothing :
    compileFilters [("tags", Value.arr [Value.num 1])] = [] ∧
    compileFilters [("tags", Value.arr [Value.num 1])] ≠
      [Pred.eq "tags" (Value.arr [Value.num 1])] := by
  refine ⟨rfl, ?_⟩
  intro h
  rw [show compileFilters [("tags", Value.arr [Value.num 1])] = [] from rfl] at h
  exact List.noConfusion h

/-- C2 (amended): a field whose value is a non-object-typed literal — `null`,
a boolean, a number or a string — compiles to the single equality predicate
`field == value` and nothing else; arrays, dates and other object-typed
values are instead dispatched to the operator branch and contribute only the
predicates of recognized operator keys they contain (none, for a plain
array). -/
theorem c2_scalar_literal_compiles_to_single_equality (key : String)
    (v : Value) (h : isOperatorObject v = false) :
    compileEntry key v = [Pred.eq key v] := by
  simp [compileEntry, h]

/-- Witness for the amended C2 at a concrete scalar. -/
theorem c2_scalar_literal_witness :
    isOperatorObject (Value.num 5) = false ∧
    compileEntry "age" (Value.num 5) = [Pred.eq "age" (Value.num 5)] :=
  ⟨rfl, c2_scalar_literal_compiles_to_single_equality "age" (Value.num 5) rfl⟩

/-! ## Claim C1 -/

/-- The recognized operator set in its fixed source order, each paired with
the predicate its operand emits.  This is the spec's description of the
operator branch, to be compared with the source-derived `compileEntry`. -/
def recognizedOps : List (String × (String → Value → Pred)) :=
  [("$gt", Pred.gt), ("$lt", Pred.lt), ("$gte", Pred.gte),
   ("$lte", Pred.lte), ("$ne", Pred.ne), ("$in", Pred.containedIn)]

/-- Iterate the recognized-operator set in order and emit one predicate per
operator key present in the operator object (the spec's operator branch). -/
def specCompileOpObject (key : String) (fs : List (String × Value)) : List Pred :=
  recognizedOps.flatMap fun op =>
    match fs.lookup op.1 with
    | some v => [op.2 key v]
    | none => []

theorem compileFilters_nil : compileFilters [] = [] := rfl

theorem compileFilters_cons (k : String) (v : Value)
    (l : List (String × Value)) :
    compileFilters ((k, v) :: l) = compileEntry k v ++ compileFilters l := by
  simp [compileFilters]

theorem compileFilters_append (a b : List (String × Value)) :
    compileFilters (a ++ b) = compileFilters a ++ compileFilters b := by
  simp [compileFilters]

/-- C1: a field whose value is an operator object contributes exactly one
predicate per recognized operator key present, the recognized operators
iterated in the fixed order `$gt`, `$lt`, `$gte`, `$lte`, `$ne`, `$in`
(first conjunct); unrecognized keys contribute no predicate (second
conjunct); and in both `readTable` and `countRecords` a field whose operator
object holds only unrecognized keys yields the very same result as omitting
the field from the filter (third conjunct). -/
theorem c1_operator_object_fixed_order_unrecognized_skipped :
    (∀ key fs, compileEntry key (Value.obj fs) = specCompileOpObject key fs) ∧
    (∀ key fs, (∀ op ∈ recognizedOps, fs.lookup op.1 = none) →
      compileEntry key (Value.obj fs) = []) ∧
    (∀ (s : Store) (cn : Option String)
       (pre post : List (String × Value)) (key : String)
       (fs : List (String × Value)) (limit skp : Option Nat),
      (∀ op ∈ recognizedOps, fs.lookup op.1 = none) →
      readTable s cn (some (pre ++ (key, Value.obj fs) :: post)) limit skp =
        readTable s cn (some (pre ++ post)) limit skp ∧
      countRecords s cn (some (pre ++ (key, Value.obj fs) :: post)) =
        countRecords s cn (some (pre ++ post))) := by
  have horder : ∀ key fs, compileEntry key (Value.obj fs) = specCompileOpObject key fs := by
    intro key fs
    cases hg : fs.lookup "$gt" <;> cases hl : fs.lookup "$lt" <;>
      cases hge : fs.lookup "$gte" <;> cases hle : fs.lookup "$lte" <;>
      cases hne : fs.lookup "$ne" <;> cases hin : fs.lookup "$in" <;>
      simp [compileEntry, specCompileOpObject, recognizedOps, getProp,
        isOperatorObject, hg, hl, hge, hle, hne, hin]
  have hnone : ∀ key fs, (∀ op ∈ recognizedOps, fs.lookup op.1 = none) →
      compileEntry key (Value.obj fs) = [] := by
    intro key fs h
    rw [horder]
    have hg := h ("$gt", Pred.gt) (by simp [recognizedOps])
    have hl := h ("$lt", Pred.lt) (by simp [recognizedOps])
    have hge := h ("$gte", Pred.gte) (by simp [recognizedOps])
    have hle := h ("$lte", Pred.lte) (by simp [recognizedOps])
    have hne := h ("$ne", Pred.ne) (by simp [recognizedOps])
    have hin := h ("$in", Pred.containedIn) (by simp [recognizedOps])
    simp [specCompileOpObject, recognizedOps, hg, hl, hge, hle, hne, hin]
  refine ⟨horder, hnone, ?_⟩
  intro s cn pre post key fs limit skp h
  have hc : compileFilters (pre ++ (key, Value.obj fs) :: post) =
      compileFilters (pre ++ post) := by
    rw [compileFilters_append, compileFilters_cons, hnone key fs h,
      compileFilters_append]
    simp
  constructor
  · simp only [readTable, readTableBody, Option.getD_some, hc]
  · simp only [countRecords, countRecordsBody, Option.getD_some, hc]

/-- Witness for C1 at a concrete filter whose operator object holds only the
unrecognized key `bogus`: both operations behave as with that field
omitted. -/
theorem c1_unrecognized_key_witness :
    readTable ⟨[("T", [⟨"obj0", [("f", Value.num 3)], true⟩])], 1⟩ (some "T")
        (some [("f", Value.obj [("bogus", Value.num 5)])]) none none =
      readTable ⟨[("T", [⟨"obj0", [("f", Value.num 3)], true⟩])], 1⟩ (some "T")
        (some []) none none ∧
    countRecords ⟨[("T", [⟨"obj0", [("f", Value.num 3)], true⟩])], 1⟩ (some "T")
        (some [("f", Value.obj [("bogus", Value.num 5)])]) =
      countRecords ⟨[("T", [⟨"obj0", [("f", Value.num 3)], true⟩])], 1⟩ (some "T")
        (some []) := by
  have h := c1_operator_object_fixed_order_unrecognized_skipped.2.2
    ⟨[("T", [⟨"obj0", [("f", Value.num 3)], true⟩])], 1⟩ (some "T") [] []
    "f" [("bogus", Value.num 5)] none none
    (by intro op hop
        simp only [recognizedOps, List.mem_cons, List.not_mem_nil,
          or_false] at hop
        rcases hop with rfl | rfl | rfl | rfl | rfl | rfl <;> rfl)
  simpa using h

/-! ## Claim C4 -/

/-- C4: for every class and filter spec, `countRecords` succeeds with
exactly the length of the `readTable` result page taken with skip `0` and
any limit at least the number of matching records (an unbounded limit), and
its count is the full filtered count — `countRecords` takes no pagination
parameters at all, so no limit or skip is ever applied on its path. -/
theorem c4_count_equals_unbounded_read_length (s : Store) (cn : String)
    (filters : Option (List (String × Value))) (limit : Nat)
    (hcn : truthyStr (some cn) = true)
    (hlim : (runQuery (getClassRecords s cn)
      (compileFilters (filters.getD []))).length ≤ limit) :
    ∃ cp rp, countRecords s (some cn) filters = (Except.ok cp, s) ∧
      readTable s (some cn) filters (some limit) (some 0) = (Except.ok rp, s) ∧
      cp.count = rp.data.length ∧
      cp.count = (runQuery (getClassRecords s cn)
        (compileFilters (filters.getD []))).length := by
  have hq : ((runQuery (getClassRecords s cn)
      (compileFilters (filters.getD []))).drop 0).take limit =
      runQuery (getClassRecords s cn) (compileFilters (filters.getD [])) := by
    rw [List.drop_zero, List.take_of_length_le hlim]
  refine ⟨⟨cn, (runQuery (getClassRecords s cn)
      (compileFilters (filters.getD []))).length⟩,
    ⟨cn, (runQuery (getClassRecords s cn)
      (compileFilters (filters.getD []))).length,
      runQuery (getClassRecords s cn) (compileFilters (filters.getD []))⟩,
    ?_, ?_, rfl, rfl⟩
  · simp [countRecords, countRecordsBody, wrapTry, hcn]
  · simp only [readTable, readTableBody, wrapTry, hcn, Bool.not_true,
      Bool.false_eq_true, if_false, Option.getD_some, hq]

/-- Witness for C4 on a concrete two-record store with a range filter
matching one record. -/
theorem c4_witness :
    ∃ cp rp,
      countRecords
          ⟨[("T", [⟨"obj0", [("a", Value.num 1)], true⟩,
                   ⟨"obj1", [("a", Value.num 7)], true⟩])], 2⟩
          (some "T") (some [("a", Value.obj [("$gte", Value.num 5)])]) =
        (Except.ok cp,
          ⟨[("T", [⟨"obj0", [("a", Value.num 1)], true⟩,
                   ⟨"obj1", [("a", Value.num 7)], true⟩])], 2⟩) ∧
      readTable
          ⟨[("T", [⟨"obj0", [("a", Value.num 1)], true⟩,
                   ⟨"obj1", [("a", Value.num 7)], true⟩])], 2⟩
          (some "T") (some [("a", Value.obj [("$gte", Value.num 5)])])
          (some 100) (some 0) =
        (Except.ok rp,
          ⟨[("T", [⟨"obj0", [("a", Value.num 1)], true⟩,
                   ⟨"obj1", [("a", Value.num 7)], true⟩])], 2⟩) ∧
      cp.count = rp.data.length ∧
      cp.count = 1 := by
  obtain ⟨cp, rp, h1, h2, h3, h4⟩ := c4_count_equals_unbounded_read_length
    ⟨[("T", [⟨"obj0", [("a", Value.num 1)], true⟩,
             ⟨"obj1", [("a", Value.num 7)], true⟩])], 2⟩
    "T" (some [("a", Value.obj [("$gte", Value.num 5)])]) 100 rfl
    (by decide)
  exact ⟨cp, rp, h1, h2, h3, by rw [h4]; decide⟩

/-! ## Claim C7 -/

/-- C7: a successful `createTable` call with the optional schema parameter
supplied persists exactly one new record in the class, carrying exactly the
schema's field values and the public access policy; every other class of
the store is untouched.  The class is materialized by this side-effecting
record insert. -/
theorem c7_createTable_with_schema_inserts_one_record (s : Store)
    (cn : String) (sch : List (String × Value))
    (hcn : truthyStr (some cn) = true) :
    ∃ p s', createTable s (some cn) (some sch) = (Except.ok p, s') ∧
      getClassRecords s' cn =
        getClassRecords s cn ++ [⟨freshId s.nextId, sch, true⟩] ∧
      (∀ cn', cn' ≠ cn → getClassRecords s' cn' = getClassRecords s cn') ∧
      s'.nextId = s.nextId + 1 := by
  refine ⟨⟨"Table " ++ cn ++ " created successfully", cn⟩,
    (insertRecord s cn sch true).1, ?_, ?_, ?_, rfl⟩
  · simp [createTable, hcn]
  · exact insertRecord_getClass_self s cn sch true
  · intro cn' h
    exact insertRecord_getClass_ne s cn cn' sch true h

/-- Witness for C7 on an empty store and a one-field schema. -/
theorem c7_witness :
    ∃ p s', createTable ⟨[], 0⟩ (some "T") (some [("a", Value.num 1)]) =
        (Except.ok p, s') ∧
      getClassRecords s' "T" = [⟨"obj0", [("a", Value.num 1)], true⟩] ∧
      s'.nextId = 1 := by
  obtain ⟨p, s', h1, h2, _, h4⟩ := c7_createTable_with_schema_inserts_one_record
    ⟨[], 0⟩ "T" [("a", Value.num 1)] rfl
  exact ⟨p, s', h1, by simpa using h2, h4⟩

/-! ## Claim C9 -/

/-- C9: every error raised during the delegated store work is re-raised
wrapped with the operation-specific message prefix followed by the original
message verbatim, and no error path yields a success result: the shared
`try/catch` wrapper preserves the original message after the prefix and
returns success only when the delegated body succeeded (first two
conjuncts), and each operation routes its delegated body through that
wrapper with its own prefix (remaining conjuncts, for the operations whose
bodies can fail, plus the success-only-from-success direction for
`createRecord` and `countRecords`). -/
theorem c9_store_errors_wrapped_with_operation_prefix :
    (∀ (α : Type) (pre : String) (s : Store)
       (b : Except StoreErr (α × Store)) (e : StoreErr),
      b = Except.error e →
      wrapTry pre s b = (Except.error (Err.failure (pre ++ e.msg)), s)) ∧
    (∀ (α : Type) (pre : String) (s : Store)
       (b : Except StoreErr (α × Store)) (a : α) (s' : Store),
      wrapTry pre s b = (Except.ok a, s') → b = Except.ok (a, s')) ∧
    (∀ (s : Store) (cn oid : String) (d : List (String × Value)) (e : StoreErr),
      truthyStr (some cn) = true → truthyStr (some oid) = true →
      updateRecordBody s cn oid d = Except.error e →
      updateRecord s (some cn) (some oid) (some d) =
        (Except.error (Err.failure ("Failed to update record: " ++ e.msg)), s)) ∧
    (∀ (s : Store) (cn oid : String) (e : StoreErr),
      truthyStr (some cn) = true → truthyStr (some oid) = true →
      deleteRecordBody s cn oid = Except.error e →
      deleteRecord s (some cn) (some oid) =
        (Except.error (Err.failure ("Failed to delete record: " ++ e.msg)), s)) ∧
    (∀ (s : Store) (cn : String) (e : StoreErr),
      truthyStr (some cn) = true →
      getTableSchemaBody s cn = Except.error e →
      getTableSchema s (some cn) =
        (Except.error (Err.failure ("Failed to get schema: " ++ e.msg)), s)) ∧
    (∀ (s : Store) (cn : String) (e : StoreErr),
      truthyStr (some cn) = true →
      deleteTableBody s cn = Except.error e →
      deleteTable s (some cn) =
        (Except.error (Err.failure ("Failed to delete table: " ++ e.msg)), s)) ∧
    (∀ (s : Store) (cn : String) (d : List (String × Value))
       (p : RecordPayload) (s' : Store),
      createRecord s (some cn) (some d) = (Except.ok p, s') →
      createRecordBody s cn d = Except.ok (p, s')) ∧
    (∀ (s : Store) (cn : String) (f : Option (List (String × Value)))
       (p : CountPayload) (s' : Store),
      countRecords s (some cn) f = (Except.ok p, s') →
      countRecordsBody s cn (f.getD []) = Except.ok (p, s')) := by
  have hwrap : ∀ (α : Type) (pre : String) (s : Store)
      (b : Except StoreErr (α × Store)) (e : StoreErr),
      b = Except.error e →
      wrapTry pre s b = (Except.error (Err.failure (pre ++ e.msg)), s) := by
    intro α pre s b e hb
    subst hb
    rfl
  have hok : ∀ (α : Type) (pre : String) (s : Store)
      (b : Except StoreErr (α × Store)) (a : α) (s' : Store),
      wrapTry pre s b = (Except.ok a, s') → b = Except.ok (a, s') := by
    intro α pre s b a s' hb
    cases b with
    | ok x =>
      obtain ⟨a', s''⟩ := x
      simp only [wrapTry, Prod.mk.injEq, Except.ok.injEq] at hb
      rw [hb.1, hb.2]
    | error e => simp [wrapTry] at hb
  refine ⟨hwrap, hok, ?_, ?_, ?_, ?_, ?_, ?_⟩
  · intro s cn oid d e h1 h2 hbody
    rw [updateRecord]
    simp only [h1, h2, Option.isNone_none, Option.isNone_some, Bool.not_true,
      Bool.false_or, Bool.or_false, Option.getD_some, if_false,
      Bool.false_eq_true]
    exact hwrap _ _ s _ e hbody
  · intro s cn oid e h1 h2 hbody
    rw [deleteRecord]
    simp only [h1, h2, Bool.not_true, Bool.or_false, Option.getD_some,
      if_false, Bool.false_eq_true, Bool.false_or]
    exact hwrap _ _ s _ e hbody
  · intro s cn e h1 hbody
    rw [getTableSchema]
    simp only [h1, Bool.not_true, if_false, Option.getD_some,
      Bool.false_eq_true]
    exact hwrap _ _ s _ e hbody
  · intro s cn e h1 hbody
    rw [deleteTable]
    simp only [h1, Bool.not_true, if_false, Option.getD_some,
      Bool.false_eq_true]
    exact hwrap _ _ s _ e hbody
  · intro s cn d p s' h
    by_cases hcn : truthyStr (some cn) = true
    · rw [createRecord] at h
      simp only [hcn, Option.isNone_some, Bool.not_true, Bool.or_false,
        Option.getD_some, if_false, Bool.false_eq_true] at h
      exact hok _ _ s _ p s' h
    · rw [createRecord] at h
      rw [Bool.not_eq_true] at hcn
      simp [hcn] at h
  · intro s cn f p s' h
    by_cases hcn : truthyStr (some cn) = true
    · rw [countRecords] at h
      simp only [hcn, Bool.not_true, if_false, Option.getD_some,
        Bool.false_eq_true] at h
      exact hok _ _ s _ p s' h
    · rw [countRecords] at h
      rw [Bool.not_eq_true] at hcn
      simp [hcn] at h

/-- Witness for C9: an update of a missing record surfaces the store's
not-found message verbatim behind the operation prefix. -/
theorem c9_witness :
    updateRecord ⟨[], 0⟩ (some "T") (some "x") (some []) =
      (Except.error
        (Err.failure ("Failed to update record: " ++ "Object not found.")),
       ⟨[], 0⟩) :=
  c9_store_errors_wrapped_with_operation_prefix.2.2.1
    ⟨[], 0⟩ "T" "x" [] ⟨"Object not found."⟩ rfl rfl rfl

/-! ## Claim C3 -/

theorem lookup_filter_ne_self {α : Type} (l : List (String × α)) (cn : String) :
    (l.filter fun p => p.1 != cn).lookup cn = none := by
  induction l with
  | nil => simp [List.lookup]
  | cons p l ih =>
    obtain ⟨k, v⟩ := p
    by_cases h : k = cn
    · subst h
      simp only [List.filter_cons, bne_self_eq_false, if_false,
        Bool.false_eq_true]
      exact ih
    · have hk : (k != cn) = true := by simp [bne, beq_false_of_ne h]
      simp only [List.filter_cons, hk, if_true]
      simp only [List.lookup_cons, beq_false_of_ne (Ne.symm h)]
      exact ih

/-- C3: after a successful `deleteTable`, the class's records are gone, the
class definition itself is gone, `listTables` no longer includes the class,
and `getTableSchema` on it fails with the wrapped not-found error. -/
theorem c3_deleteTable_removes_records_and_definition (s : Store)
    (cn : String) (p : DeleteTablePayload) (s' : Store)
    (h : deleteTable s (some cn) = (Except.ok p, s')) :
    getClassRecords s' cn = [] ∧
    classExists s' cn = false ∧
    (∃ q, listTables s' = (Except.ok q, s') ∧
      ∀ t ∈ q.tables, t.className ≠ cn) ∧
    (getTableSchema s' (some cn)).1 =
      Except.error (Err.failure
        ("Failed to get schema: " ++ ("Class " ++ cn ++ " does not exist."))) := by
  have hcn : truthyStr (some cn) = true := by
    by_contra hc
    rw [Bool.not_eq_true] at hc
    rw [deleteTable] at h
    simp [hc] at h
  rw [deleteTable] at h
  simp only [hcn, Bool.not_true, if_false, Option.getD_some,
    Bool.false_eq_true] at h
  by_cases hex : classExists s cn = true
  · simp only [deleteTableBody, purgeClass, hex, if_true, wrapTry,
      Prod.mk.injEq, Except.ok.injEq] at h
    obtain ⟨-, hs⟩ := h
    subst hs
    refine ⟨?_, ?_, ⟨_, rfl, ?_⟩, ?_⟩
    · simp [getClassRecords, lookup_filter_ne_self]
    · simp [classExists, lookup_filter_ne_self]
    · intro t ht
      simp only [listTables] at ht
      obtain ⟨pp, hpp, rfl⟩ := List.mem_map.1 ht
      have := (List.mem_filter.1 hpp).2
      simpa using this
    · rw [getTableSchema]
      simp only [hcn, Bool.not_true, if_false, Option.getD_some,
        Bool.false_eq_true]
      simp [getTableSchemaBody, lookup_filter_ne_self, wrapTry]
  · rw [Bool.not_eq_true] at hex
    simp [deleteTableBody, purgeClass, hex, wrapTry] at h

/-- Witness for C3 on a one-class store. -/
theorem c3_witness :
    getClassRecords (⟨[], 1⟩ : Store) "T" = [] ∧
    classExists (⟨[], 1⟩ : Store) "T" = false ∧
    (∃ q, listTables (⟨[], 1⟩ : Store) = (Except.ok q, (⟨[], 1⟩ : Store)) ∧
      ∀ t ∈ q.tables, t.className ≠ "T") ∧
    (getTableSchema (⟨[], 1⟩ : Store) (some "T")).1 =
      Except.error (Err.failure
        ("Failed to get schema: " ++ ("Class " ++ "T" ++ " does not exist."))) :=
  c3_deleteTable_removes_records_and_definition
    ⟨[("T", [⟨"obj0", [], true⟩])], 1⟩ "T"
    ⟨"Table " ++ "T" ++ " deleted successfully"⟩ ⟨[], 1⟩ rfl

/-! ## Claim C6 -/

theorem saveAll_spec (cn : String) (ds : List (List (String × Value)))
    (s : Store) :
    getClassRecords (saveAll s cn ds).1 cn =
      getClassRecords s cn ++ (saveAll s cn ds).2 ∧
    (saveAll s cn ds).2.map (fun r => r.fields) = ds ∧
    (saveAll s cn ds).2.map (fun r => r.objectId) =
      (List.range ds.length).map (fun i => freshId (s.nextId + i)) ∧
    (saveAll s cn ds).2.length = ds.length := by
  induction ds generalizing s with
  | nil => simp [saveAll]
  | cons d rest ih =>
    obtain ⟨ih1, ih2, ih3, ih4⟩ := ih (insertRecord s cn d true).1
    have hsave : saveAll s cn (d :: rest) =
        ((saveAll (insertRecord s cn d true).1 cn rest).1,
          (insertRecord s cn d true).2 ::
            (saveAll (insertRecord s cn d true).1 cn rest).2) := rfl
    refine ⟨?_, ?_, ?_, ?_⟩
    · rw [hsave]
      simp only [ih1, insertRecord_getClass_self]
      simp [List.append_assoc, insertRecord_snd]
    · rw [hsave]
      simp [insertRecord_snd, ih2]
    · rw [hsave]
      simp only [List.map_cons, ih3, insertRecord_nextId, insertRecord_snd]
      rw [List.length_cons, List.range_succ_eq_map, List.map_cons, List.map_map]
      have hfun : ((fun i => freshId (s.nextId + i)) ∘ Nat.succ) =
          fun i => freshId (s.nextId + 1 + i) := by
        funext i
        simp only [Function.comp]
        congr 1
        omega
      rw [hfun]
      simp
    · rw [hsave]
      simp [ih4]

/-- C6: a successful `batchCreateRecords` on input `[r1, ..., rN]` returns
exactly `N` object ids whose positional order corresponds 1:1 to the input
order — the new records are appended to the class in input order, the
`i`-th returned id is the id of the record created from the `i`-th input
entry, the ids are the consecutively minted fresh ids — and reports
`count = N`. -/
theorem c6_batchCreate_returns_ids_in_input_order (s : Store) (cn : String)
    (ds : List (List (String × Value))) (hcn : truthyStr (some cn) = true) :
    ∃ p s', batchCreateRecords s (some cn) (some ds) = (Except.ok p, s') ∧
      p.count = ds.length ∧
      p.objectIds.length = ds.length ∧
      (∃ newRecs, getClassRecords s' cn = getClassRecords s cn ++ newRecs ∧
        newRecs.map (fun r => r.objectId) = p.objectIds ∧
        newRecs.map (fun r => r.fields) = ds) ∧
      p.objectIds = (List.range ds.length).map (fun i => freshId (s.nextId + i)) := by
  obtain ⟨h1, h2, h3, h4⟩ := saveAll_spec cn ds s
  refine ⟨⟨toString (saveAll s cn ds).2.length ++ " records created successfully",
    (saveAll s cn ds).2.length, (saveAll s cn ds).2.map (fun o => o.objectId)⟩,
    (saveAll s cn ds).1, ?_, h4, ?_, ⟨(saveAll s cn ds).2, h1, rfl, h2⟩, h3⟩
  · simp [batchCreateRecords, batchCreateRecordsBody, wrapTry, hcn]
  · simpa using h4

/-- Witness for C6: two records batch-created into an empty store come back
with the two fresh ids in input order and count 2. -/
theorem c6_witness :
    ∃ p s', batchCreateRecords ⟨[], 0⟩ (some "T")
        (some [[("a", Value.num 1)], [("b", Value.num 2)]]) =
      (Except.ok p, s') ∧
      p.count = 2 ∧ p.objectIds = ["obj0", "obj1"] := by
  obtain ⟨p, s', h1, h2, -, -, h5⟩ := c6_batchCreate_returns_ids_in_input_order
    ⟨[], 0⟩ "T" [[("a", Value.num 1)], [("b", Value.num 2)]] rfl
  refine ⟨p, s', h1, h2, ?_⟩
  rw [h5]
  decide

/-! ## Claim C5 -/

theorem findRecord_replaceRecord (recs : List StoredRecord) (oid : String)
    (r r' : StoredRecord) (h : findRecord recs oid = some r)
    (h' : (r'.objectId == oid) = true) :
    findRecord (replaceRecord recs oid r') oid = some r' := by
  induction recs with
  | nil => simp [findRecord, List.find?] at h
  | cons a rest ih =>
    by_cases ha : (a.objectId == oid) = true
    · simp [replaceRecord, findRecord, List.find?, ha, h']
    · rw [Bool.not_eq_true] at ha
      simp only [findRecord, List.find?, ha] at h
      simp only [replaceRecord, List.map_cons, ha, if_false,
        Bool.false_eq_true]
      simp only [findRecord, List.find?, ha, Bool.false_eq_true]
      exact ih h

/-- C5: for an existing record, `updateRecord` succeeds, returns the merged
record, persists it — fields named in `data` take their new value, fields
not named in `data` are untouched, other classes are untouched; for a
missing `objectId` the operation fails with the wrapped not-found error and
the store is returned unchanged. -/
theorem c5_updateRecord_merges_and_preserves_untouched_fields (s : Store)
    (cn oid : String) (d : List (String × Value))
    (hcn : truthyStr (some cn) = true) (hoid : truthyStr (some oid) = true)
    (hnd : (d.map Prod.fst).Nodup) :
    (∀ r, findRecord (getClassRecords s cn) oid = some r →
      ∃ s', updateRecord s (some cn) (some oid) (some d) =
          (Except.ok ⟨"Record updated successfully", r.objectId,
            { r with fields := mergeFields r.fields d }⟩, s') ∧
        findRecord (getClassRecords s' cn) oid =
          some { r with fields := mergeFields r.fields d } ∧
        (∀ k, d.lookup k = none →
          (mergeFields r.fields d).lookup k = r.fields.lookup k) ∧
        (∀ k v, d.lookup k = some v →
          (mergeFields r.fields d).lookup k = some v) ∧
        (∀ cn', cn' ≠ cn → getClassRecords s' cn' = getClassRecords s cn')) ∧
    (findRecord (getClassRecords s cn) oid = none →
      updateRecord s (some cn) (some oid) (some d) =
        (Except.error
          (Err.failure ("Failed to update record: " ++ "Object not found.")),
         s)) := by
  constructor
  · intro r hr
    have hr' : List.find? (fun x => x.objectId == oid)
        (getClassRecords s cn) = some r := hr
    have hbeq : (r.objectId == oid) = true := by
      have hb := List.find?_some hr'
      simpa using hb
    refine ⟨putClassRecords s cn
      (replaceRecord (getClassRecords s cn) oid
        { r with fields := mergeFields r.fields d }), ?_, ?_, ?_, ?_, ?_⟩
    · rw [updateRecord]
      simp only [hcn, hoid, Option.isNone_some, Bool.not_true, Bool.or_false,
        Bool.false_or, if_false, Option.getD_some, Bool.false_eq_true]
      simp [updateRecordBody, hr, wrapTry]
    · rw [getClassRecords_putClassRecords_self]
      exact findRecord_replaceRecord _ _ r _ hr hbeq
    · intro k hk
      exact lookup_mergeFields_of_lookup_none d r.fields k hk
    · intro k v hk
      exact lookup_mergeFields_of_lookup_some d r.fields k v hnd hk
    · intro cn' h
      exact getClassRecords_putClassRecords_ne s cn cn' _ h
  · intro hnone
    rw [updateRecord]
    simp only [hcn, hoid, Option.isNone_some, Bool.not_true, Bool.or_false,
      Bool.false_or, if_false, Option.getD_some, Bool.false_eq_true]
    simp [updateRecordBody, hnone, wrapTry]

/-- Witness for C5 on the spec's own example: a record `\x7ba:1, b:2\x7d`
updated with `\x7ba:9\x7d` keeps `b = 2` and takes `a = 9`. -/
theorem c5_witness :
    ∃ s', updateRecord
        ⟨[("T", [⟨"obj0", [("a", Value.num 1), ("b", Value.num 2)], true⟩])], 1⟩
        (some "T") (some "obj0") (some [("a", Value.num 9)]) =
      (Except.ok ⟨"Record updated successfully", "obj0",
        ⟨"obj0", [("a", Value.num 9), ("b", Value.num 2)], true⟩⟩, s') ∧
      findRecord (getClassRecords s' "T") "obj0" =
        some ⟨"obj0", [("a", Value.num 9), ("b", Value.num 2)], true⟩ := by
  obtain ⟨s', h1, h2, -, -, -⟩ :=
    (c5_updateRecord_merges_and_preserves_untouched_fields
      ⟨[("T", [⟨"obj0", [("a", Value.num 1), ("b", Value.num 2)], true⟩])], 1⟩
      "T" "obj0" [("a", Value.num 9)] rfl rfl (by simp)).1
    ⟨"obj0", [("a", Value.num 1), ("b", Value.num 2)], true⟩ rfl
  exact ⟨s', h1, h2⟩

end ParseCloud
